import Mathlib

/-
Shallow embedding of the versioned multi-level product cache of the
MH-Go-Backend stock service (src/internal/cache/product_cache.go and
src/internal/handlers/pos_handler.go), together with proofs of the
spec-derived claims about it.

The Redis key/value store is modelled structurally: the four fixed marker
keys (price-list version, price-list last-check, catalog version, catalog
last-check) become four dedicated state fields, and the record namespace
"product:*" becomes an association list keyed by scan code.  Faithfulness
of that split is justified by the key-distinctness lemmas below.
Machine integers (Unix timestamps, counters) are modelled as Int; the Go
code performs no overflowing arithmetic on them.
-/

namespace StockService

/-- Resolved record (models.ProductoCompleto), restricted to the fields the
cache logic inspects: the canonical catalog code `Codigo`, the optional pack
code `CodigoPack` (nil pointer in Go becomes `none`), and the display name. -/
structure ProductoCompleto where
  codigo : String
  codigoPack : Option String
  nombre : String
deriving DecidableEq, Repr

/-- A durable-tier (Redis) payload stored under a "product:*" key: either a
JSON blob that deserializes into a record, or a corrupt payload on which
json.Unmarshal fails (getFromL2 then returns an error). -/
inductive L2Payload where
  | ok (p : ProductoCompleto)
  | corrupt
deriving DecidableEq, Repr

/-- Ghost trace events recording the order of the observable invalidation
steps: a completed full-namespace flush, a failed flush attempt, and the
commit of a new domain version (the pipelined Set of version + last-check). -/
inductive Event where
  | flush
  | flushFailed
  | commitLista (v : String)
  | commitProductos (v : String)
deriving DecidableEq, Repr

/-- The joint state of the ProductCache structure and the Redis keys it
uses.  `l1` is the in-process map (association list, newest binding first);
`l2` is the set of Redis "product:*" entries; `listaVersion` /
`listaLastCheck` model the "lista_precios:global_version" /
"lista_precios:last_check" keys (outer `none` = key absent, i.e. redis.Nil;
`some none` for a last-check value whose payload does not parse as a
decimal integer); `productosVersion` / `productosLastCheck` are the
corresponding "productos:*" keys.  `flushCount`, `dbRecordQueries`,
`dbVersionProbes` and `events` are ghost instrumentation counting completed
InvalidateAll runs, authoritative record lookups, authoritative
MAX(updated_at) probes, and the ordered invalidation events. -/
structure CacheState where
  l1 : List (String × ProductoCompleto)
  l2 : List (String × L2Payload)
  listaVersion : Option String
  listaLastCheck : Option (Option Int)
  productosVersion : Option String
  productosLastCheck : Option (Option Int)
  maxL1Size : Nat
  hits : Int
  misses : Int
  flushCount : Nat
  dbRecordQueries : Nat
  dbVersionProbes : Nat
  events : List Event
deriving DecidableEq, Repr

/-- The environment of one request: the wall clock (time.Now().Unix()),
whether Redis commands succeed (`redisUp`), whether the SCAN/DEL pass of
InvalidateAll succeeds (`scanOk`), the authoritative joined record lookup
(repository GetProductoByBarcode), and the authoritative max-timestamp
probes for each domain, already formatted with time.RFC3339Nano. -/
structure Env where
  now : Int
  redisUp : Bool
  scanOk : Bool
  db : String → Option ProductoCompleto
  listaTs : Option String
  productosTs : Option String

/-- Association-list lookup, first binding wins (Go map read). -/
def alLookup (k : String) (m : List (String × α)) : Option α :=
  (m.find? (fun kv => kv.1 == k)).map (fun kv => kv.2)

/-- Association-list erase (Go `delete(m, k)`). -/
def alErase (k : String) (m : List (String × α)) : List (String × α) :=
  m.filter (fun kv => kv.1 != k)

/-- Association-list overwrite (Go `m[k] = v`). -/
def alInsert (k : String) (v : α) (m : List (String × α)) : List (String × α) :=
  (k, v) :: alErase k m

/-- Fixed Redis key of the price-list global version. -/
def globalVersionKey : String := "lista_precios:global_version"

/-- Fixed Redis key of the price-list last-check timestamp. -/
def lastCheckTimestampKey : String := "lista_precios:last_check"

/-- Fixed Redis key of the catalog (productos) global version. -/
def productosVersionKey : String := "productos:global_version"

/-- Fixed Redis key of the catalog (productos) last-check timestamp. -/
def productosLastCheckKey : String := "productos:last_check"

/-- Redis key of a cached record: fmt.Sprintf("product:%s", codigoBarras). -/
def productKey (codigoBarras : String) : String := "product:" ++ codigoBarras

/-- checkIntervalSeconds is hard-wired to 10 in NewProductCache. -/
def checkIntervalSeconds : Int := 10

/-- getFromL1: read the in-process map under the read lock. -/
def getFromL1 (k : String) (s : CacheState) : Option ProductoCompleto :=
  alLookup k s.l1

/-- evictLRU deletes the first key produced by Go's (arbitrary-order) map
iteration; the head of the association list stands for that first key.  All
properties proved about eviction below are insensitive to which single
entry is removed. -/
def evictLRU (m : List (String × ProductoCompleto)) :
    List (String × ProductoCompleto) :=
  m.tail

/-- setToL1: evict one entry when the map has reached maxL1Size, then
overwrite the binding. -/
def setToL1 (k : String) (p : ProductoCompleto) (s : CacheState) : CacheState :=
  let m := if s.maxL1Size ≤ s.l1.length then evictLRU s.l1 else s.l1
  { s with l1 := alInsert k p m }

/-- getFromL2: one Redis read plus JSON deserialization; errors are a
connection failure, redis.Nil for an absent key, or an Unmarshal failure on
a corrupt payload. -/
def getFromL2 (e : Env) (k : String) (s : CacheState) :
    Except Unit ProductoCompleto :=
  if e.redisUp then
    match alLookup k s.l2 with
    | none => .error ()
    | some .corrupt => .error ()
    | some (.ok p) => .ok p
  else .error ()

/-- recordHit: increment the hit counter under the stats lock. -/
def recordHit (s : CacheState) : CacheState := { s with hits := s.hits + 1 }

/-- recordMiss: increment the miss counter under the stats lock. -/
def recordMiss (s : CacheState) : CacheState := { s with misses := s.misses + 1 }

/-- GetProduct: L1, then L2 with promotion into L1, else the single miss
error `producto no encontrado en caché` — the Go function has exactly one
error value, returned identically on every miss path, which `none` models. -/
def getProduct (e : Env) (k : String) (s : CacheState) :
    Option ProductoCompleto × CacheState :=
  match getFromL1 k s with
  | some p => (some p, recordHit s)
  | none =>
    match getFromL2 e k s with
    | .ok p => (some p, recordHit (setToL1 k p s))
    | .error _ => (none, recordMiss s)

/-- setToL2: marshal and write the record under its product key with the
configured TTL (the TTL itself plays no role in any claim). -/
def setToL2 (e : Env) (k : String) (p : ProductoCompleto) (s : CacheState) :
    Except Unit Unit × CacheState :=
  if e.redisUp then (.ok (), { s with l2 := alInsert k (.ok p) s.l2 })
  else (.error (), s)

/-- SetProduct: write-through, L1 first and then L2. -/
def setProduct (e : Env) (k : String) (p : ProductoCompleto) (s : CacheState) :
    Except Unit Unit × CacheState :=
  setToL2 e k p (setToL1 k p s)

/-- GetGlobalVersion: Redis read of the price-list version key; redis.Nil
becomes the empty string. -/
def getGlobalVersion (e : Env) (s : CacheState) : Except Unit String :=
  if e.redisUp then .ok (s.listaVersion.getD "") else .error ()

/-- SetGlobalVersion: one pipelined write of version and last-check. -/
def setGlobalVersion (e : Env) (v : String) (s : CacheState) :
    Except Unit Unit × CacheState :=
  if e.redisUp then
    (.ok (), { s with
      listaVersion := some v
      listaLastCheck := some (some e.now)
      events := s.events ++ [.commitLista v] })
  else (.error (), s)

/-- ShouldCheckDatabase: true when the last-check key is absent or its
value does not parse, otherwise compare the elapsed Unix seconds against
the interval. -/
def shouldCheckDatabase (e : Env) (s : CacheState) : Except Unit Bool :=
  if e.redisUp then
    match s.listaLastCheck with
    | none => .ok true
    | some none => .ok true
    | some (some lastCheck) => .ok (checkIntervalSeconds ≤ e.now - lastCheck)
  else .error ()

/-- UpdateLastCheck: overwrite the price-list last-check timestamp. -/
def updateLastCheck (e : Env) (s : CacheState) : Except Unit Unit × CacheState :=
  if e.redisUp then (.ok (), { s with listaLastCheck := some (some e.now) })
  else (.error (), s)

/-- GetProductosVersion: Redis read of the catalog version key. -/
def getProductosVersion (e : Env) (s : CacheState) : Except Unit String :=
  if e.redisUp then .ok (s.productosVersion.getD "") else .error ()

/-- SetProductosVersion: one pipelined write of version and last-check. -/
def setProductosVersion (e : Env) (v : String) (s : CacheState) :
    Except Unit Unit × CacheState :=
  if e.redisUp then
    (.ok (), { s with
      productosVersion := some v
      productosLastCheck := some (some e.now)
      events := s.events ++ [.commitProductos v] })
  else (.error (), s)

/-- ShouldCheckProductosDatabase: catalog twin of shouldCheckDatabase. -/
def shouldCheckProductosDatabase (e : Env) (s : CacheState) : Except Unit Bool :=
  if e.redisUp then
    match s.productosLastCheck with
    | none => .ok true
    | some none => .ok true
    | some (some lastCheck) => .ok (checkIntervalSeconds ≤ e.now - lastCheck)
  else .error ()

/-- UpdateProductosLastCheck: overwrite the catalog last-check timestamp. -/
def updateProductosLastCheck (e : Env) (s : CacheState) :
    Except Unit Unit × CacheState :=
  if e.redisUp then (.ok (), { s with productosLastCheck := some (some e.now) })
  else (.error (), s)

/-- InvalidateAll: clear L1 first (brief exclusive lock), then SCAN the
"product:*" namespace and DEL every key found; a scan/delete failure is
returned after L1 has already been cleared, leaving L2 untouched. -/
def invalidateAll (e : Env) (s : CacheState) : Except Unit Unit × CacheState :=
  let s1 := { s with l1 := ([] : List (String × ProductoCompleto)) }
  if e.scanOk then
    (.ok (), { s1 with
      l2 := []
      flushCount := s1.flushCount + 1
      events := s1.events ++ [.flush] })
  else (.error (), { s1 with events := s1.events ++ [.flushFailed] })

/-- InvalidateProducts: delete each listed barcode from the in-process map,
then pipeline the Redis deletes; an empty list returns immediately. -/
def invalidateProducts (e : Env) (codigos : List String) (s : CacheState) :
    Except Unit Unit × CacheState :=
  if codigos.isEmpty then (.ok (), s)
  else
    let s1 := { s with l1 := s.l1.filter (fun kv => !(codigos.contains kv.1)) }
    if e.redisUp then
      (.ok (), { s1 with l2 := s1.l2.filter (fun kv => !(codigos.contains kv.1)) })
    else (.error (), s1)

/-- Does a record carry the requested codigo_tivendo, either as its
canonical code or as its pack code? -/
def matchesCodigoTivendo (code : String) (p : ProductoCompleto) : Bool :=
  p.codigo == code || p.codigoPack == some code

/-- Does a durable-tier payload deserialize to a record matching the
requested code?  A corrupt payload never matches (getFromL2 errors and the
scan loop skips the key). -/
def l2Matches (code : String) (w : L2Payload) : Bool :=
  match w with
  | .ok p => matchesCodigoTivendo code p
  | .corrupt => false

/-- InvalidateByCodigoTivendo: collect the barcodes whose L1 record matches
the code, then scan the Redis "product:*" namespace decoding each candidate
and collect those that match too (when Redis is down the scan yields
nothing and its error is only logged), finally delete every collected
barcode from both tiers via InvalidateProducts. -/
def invalidateByCodigoTivendo (e : Env) (code : String) (s : CacheState) :
    Except Unit Unit × CacheState :=
  let fromL1 := (s.l1.filter (fun kv => matchesCodigoTivendo code kv.2)).map
    (fun kv => kv.1)
  let fromL2 := if e.redisUp then
      (s.l2.filter (fun kv => l2Matches code kv.2)).map (fun kv => kv.1)
    else []
  invalidateProducts e (fromL1 ++ fromL2) s

/-- InvalidateAllByVersion: read the stored price-list version; when it
differs from the probed one, flush the whole namespace and only then commit
the new version; when equal, report false without touching anything. -/
def invalidateAllByVersion (e : Env) (newVersion : String) (s : CacheState) :
    Except Unit Bool × CacheState :=
  match getGlobalVersion e s with
  | .error u => (.error u, s)
  | .ok currentVersion =>
    if currentVersion ≠ newVersion then
      match invalidateAll e s with
      | (.error u, s1) => (.error u, s1)
      | (.ok _, s1) =>
        match setGlobalVersion e newVersion s1 with
        | (.error u, s2) => (.error u, s2)
        | (.ok _, s2) => (.ok true, s2)
    else (.ok false, s)

/-- InvalidateAllByProductosVersion: catalog twin of InvalidateAllByVersion. -/
def invalidateAllByProductosVersion (e : Env) (newVersion : String)
    (s : CacheState) : Except Unit Bool × CacheState :=
  match getProductosVersion e s with
  | .error u => (.error u, s)
  | .ok currentVersion =>
    if currentVersion ≠ newVersion then
      match invalidateAll e s with
      | (.error u, s1) => (.error u, s1)
      | (.ok _, s1) =>
        match setProductosVersion e newVersion s1 with
        | (.error u, s2) => (.error u, s2)
        | (.ok _, s2) => (.ok true, s2)
    else (.ok false, s)

/-- JSON body of the notification endpoints: `success`, and on the happy
path the observed `version` and the `invalidated` flag. -/
structure NotifyResponse where
  success : Bool
  version : Option String
  invalidated : Option Bool
deriving DecidableEq, Repr

/-- NotifyListaPreciosUpdate: probe the authoritative max-timestamp
unconditionally (no throttle consultation), format it as the version, and
run InvalidateAllByVersion on it, reporting the version and whether a flush
happened. -/
def notifyListaPreciosUpdate (e : Env) (s : CacheState) :
    NotifyResponse × CacheState :=
  let s0 := { s with dbVersionProbes := s.dbVersionProbes + 1 }
  match e.listaTs with
  | none => ({ success := true, version := none, invalidated := none }, s0)
  | some v =>
    match invalidateAllByVersion e v s0 with
    | (.error _, s1) => ({ success := false, version := none, invalidated := none }, s1)
    | (.ok b, s1) => ({ success := true, version := some v, invalidated := some b }, s1)

/-- NotifyProductosUpdate: catalog twin of NotifyListaPreciosUpdate. -/
def notifyProductosUpdate (e : Env) (s : CacheState) :
    NotifyResponse × CacheState :=
  let s0 := { s with dbVersionProbes := s.dbVersionProbes + 1 }
  match e.productosTs with
  | none => ({ success := true, version := none, invalidated := none }, s0)
  | some v =>
    match invalidateAllByProductosVersion e v s0 with
    | (.error _, s1) => ({ success := false, version := none, invalidated := none }, s1)
    | (.ok b, s1) => ({ success := true, version := some v, invalidated := some b }, s1)

/-- validateGlobalVersion: the request-path coordinator pass for the
price-list domain.  Read the stored version; bootstrap it from the
authoritative store when empty; otherwise consult the throttle, and when it
fires probe the store, unconditionally refresh last-check (its own error is
ignored by the handler), and invalidate on mismatch. -/
def validateGlobalVersion (e : Env) (s : CacheState) :
    Except Unit Unit × CacheState :=
  match getGlobalVersion e s with
  | .error u => (.error u, s)
  | .ok currentVersion =>
    if currentVersion == "" then
      let s0 := { s with dbVersionProbes := s.dbVersionProbes + 1 }
      match e.listaTs with
      | none => (.ok (), s0)
      | some ts => setGlobalVersion e ts s0
    else
      match shouldCheckDatabase e s with
      | .error u => (.error u, s)
      | .ok false => (.ok (), s)
      | .ok true =>
        let s0 := { s with dbVersionProbes := s.dbVersionProbes + 1 }
        let s1 := (updateLastCheck e s0).2
        match e.listaTs with
        | none => (.ok (), s1)
        | some ts =>
          if currentVersion ≠ ts then
            match invalidateAllByVersion e ts s1 with
            | (.error u, s2) => (.error u, s2)
            | (.ok _, s2) => (.ok (), s2)
          else (.ok (), s1)

/-- validateProductosVersion: catalog twin of validateGlobalVersion. -/
def validateProductosVersion (e : Env) (s : CacheState) :
    Except Unit Unit × CacheState :=
  match getProductosVersion e s with
  | .error u => (.error u, s)
  | .ok currentVersion =>
    if currentVersion == "" then
      let s0 := { s with dbVersionProbes := s.dbVersionProbes + 1 }
      match e.productosTs with
      | none => (.ok (), s0)
      | some ts => setProductosVersion e ts s0
    else
      match shouldCheckProductosDatabase e s with
      | .error u => (.error u, s)
      | .ok false => (.ok (), s)
      | .ok true =>
        let s0 := { s with dbVersionProbes := s.dbVersionProbes + 1 }
        let s1 := (updateProductosLastCheck e s0).2
        match e.productosTs with
        | none => (.ok (), s1)
        | some ts =>
          if currentVersion ≠ ts then
            match invalidateAllByProductosVersion e ts s1 with
            | (.error u, s2) => (.error u, s2)
            | (.ok _, s2) => (.ok (), s2)
          else (.ok (), s1)

/-- JSON body of the lookup endpoint: `success`, the record when found, and
the `cache_hit` flag (absent only on the empty-barcode 400 response). -/
structure SearchResponse where
  success : Bool
  producto : Option ProductoCompleto
  cacheHit : Option Bool
deriving DecidableEq, Repr

/-- SearchProductByBarcode: run both domain coordinators best-effort (their
errors are logged, never raised), then the two-level cache get, and on a
full miss query the authoritative store, caching the result write-through
(caching errors again only logged). -/
def searchProductByBarcode (e : Env) (codigoBarras : String) (s : CacheState) :
    SearchResponse × CacheState :=
  if codigoBarras == "" then
    ({ success := false, producto := none, cacheHit := none }, s)
  else
    let s1 := (validateGlobalVersion e s).2
    let s2 := (validateProductosVersion e s1).2
    match getProduct e codigoBarras s2 with
    | (some p, s3) => ({ success := true, producto := some p, cacheHit := some true }, s3)
    | (none, s3) =>
      let s4 := { s3 with dbRecordQueries := s3.dbRecordQueries + 1 }
      match e.db codigoBarras with
      | none => ({ success := false, producto := none, cacheHit := some false }, s4)
      | some p =>
        let s5 := (setProduct e codigoBarras p s4).2
        ({ success := true, producto := some p, cacheHit := some false }, s5)

/-- Fold a sequence of SetProduct insertions over the state. -/
def setProducts (e : Env) (ops : List (String × ProductoCompleto))
    (s : CacheState) : CacheState :=
  ops.foldl (fun st op => (setProduct e op.1 op.2 st).2) s

/-- The two cache tiers are coherent: per-tier keys are unique (as in Go
maps and Redis) and any key present in the fast tier whose durable-tier
payload exists deserializes to the very same record.  Normal operation
(write-through SetProduct and L2-to-L1 promotion) only produces such
states; the tiers diverge only through partial failures. -/
def tiersCoherent (s : CacheState) : Prop :=
  (s.l1.map Prod.fst).Nodup ∧ (s.l2.map Prod.fst).Nodup ∧
  ∀ kv ∈ s.l1, alLookup kv.1 s.l2 = none ∨
    alLookup kv.1 s.l2 = some (L2Payload.ok kv.2)

/-- An empty cache state used as the base point of concrete scenarios. -/
def baseState : CacheState :=
  { l1 := [], l2 := [], listaVersion := none, listaLastCheck := none,
    productosVersion := none, productosLastCheck := none,
    maxL1Size := 1000, hits := 0, misses := 0, flushCount := 0,
    dbRecordQueries := 0, dbVersionProbes := 0, events := [] }

/-- A healthy environment with an empty authoritative store, used as the
base point of concrete scenarios. -/
def baseEnv : Env :=
  { now := 100, redisUp := true, scanOk := true, db := fun _ => none,
    listaTs := none, productosTs := none }

/-- Overwriting a key makes it the binding found first. -/
theorem alLookup_insert (k : String) (v : α) (m : List (String × α)) :
    alLookup k (alInsert k v m) = some v := by
  simp [alLookup, alInsert]

/-- A fresh price-list oracle makes the request-path coordinator pass a
no-op: stored version non-empty and the throttle still closed. -/
theorem validateGlobalVersion_noop (e : Env) (s : CacheState) (v : String)
    (t : Int) (hup : e.redisUp = true) (hlv : s.listaVersion = some v)
    (hv : v ≠ "") (hlc : s.listaLastCheck = some (some t))
    (ht : e.now - t < checkIntervalSeconds) :
    validateGlobalVersion e s = (.ok (), s) := by
  have hsc : shouldCheckDatabase e s = .ok false := by
    simp [shouldCheckDatabase, hup, hlc]
    omega
  simp [validateGlobalVersion, getGlobalVersion, hup, hlv, hv, hsc]

/-- A fresh catalog oracle makes the request-path coordinator pass a no-op. -/
theorem validateProductosVersion_noop (e : Env) (s : CacheState) (w : String)
    (t : Int) (hup : e.redisUp = true) (hpv : s.productosVersion = some w)
    (hw : w ≠ "") (hplc : s.productosLastCheck = some (some t))
    (ht : e.now - t < checkIntervalSeconds) :
    validateProductosVersion e s = (.ok (), s) := by
  have hsc : shouldCheckProductosDatabase e s = .ok false := by
    simp [shouldCheckProductosDatabase, hup, hplc]
    omega
  simp [validateProductosVersion, getProductosVersion, hup, hpv, hw, hsc]

/-- On a fast-tier miss whose durable-tier read errors, GetProduct records
a miss and returns the single miss outcome. -/
theorem getProduct_miss (e : Env) (k : String) (s : CacheState)
    (hl1 : alLookup k s.l1 = none) (hl2 : getFromL2 e k s = .error ()) :
    getProduct e k s = (none, recordMiss s) := by
  simp [getProduct, getFromL1, hl1, hl2]

/-- A lookup that hits the fast tier under a fresh oracle answers from the
cache with no authoritative query of any kind. -/
theorem search_l1_hit (e : Env) (k : String) (p : ProductoCompleto)
    (v w : String) (t t' : Int) (s : CacheState) (hk : k ≠ "")
    (hup : e.redisUp = true) (hl1 : alLookup k s.l1 = some p)
    (hlv : s.listaVersion = some v) (hv : v ≠ "")
    (hlc : s.listaLastCheck = some (some t))
    (ht : e.now - t < checkIntervalSeconds)
    (hpv : s.productosVersion = some w) (hw : w ≠ "")
    (hplc : s.productosLastCheck = some (some t'))
    (ht' : e.now - t' < checkIntervalSeconds) :
    searchProductByBarcode e k s =
      ({ success := true, producto := some p, cacheHit := some true },
        recordHit s) := by
  have hval := validateGlobalVersion_noop e s v t hup hlv hv hlc ht
  have hvalP := validateProductosVersion_noop e s w t' hup hpv hw hplc ht'
  simp [searchProductByBarcode, hk, hval, hvalP, getProduct, getFromL1, hl1]

/-- A successful lookup comes from a binding in the list. -/
theorem alLookup_some_mem {α : Type} {k : String} {v : α}
    {m : List (String × α)} (h : alLookup k m = some v) : (k, v) ∈ m := by
  simp only [alLookup, Option.map_eq_some'] at h
  obtain ⟨kv, hfind, hv⟩ := h
  have hmem := List.mem_of_find?_eq_some hfind
  have hk : kv.1 = k := by
    have := List.find?_some hfind
    simpa using this
  cases kv
  simp only at hk hv
  rw [hk, hv] at hmem
  exact hmem

/-- With unique keys, each binding is what lookup finds for its key. -/
theorem alLookup_eq_of_mem {α : Type} {k : String} {v : α}
    {m : List (String × α)} (hnd : (m.map Prod.fst).Nodup)
    (hmem : (k, v) ∈ m) : alLookup k m = some v := by
  induction m with
  | nil => cases hmem
  | cons kv rest ih =>
    simp only [List.map_cons, List.nodup_cons] at hnd
    rcases List.mem_cons.mp hmem with h | h
    · rw [← h]
      simp [alLookup]
    · have hne : (kv.1 == k) = false := by
        rw [beq_eq_false_iff_ne]
        intro he
        exact hnd.1 (he ▸ List.mem_map.mpr ⟨(k, v), h, rfl⟩)
      simp only [alLookup, List.find?_cons, hne]
      exact ih hnd.2 h

/-- Erasing a key removes every binding found for it. -/
theorem alLookup_erase (k : String) (m : List (String × α)) :
    alLookup k (alErase k m) = none := by
  simp only [alLookup, alErase, Option.map_eq_none', List.find?_eq_none,
    List.mem_filter, bne_iff_ne, beq_iff_eq]
  intro kv h
  exact h.2

/-- One setToL1 keeps the fast tier within a positive capacity: when the
map is full one entry is evicted before the overwrite. -/
theorem setToL1_length_le (k : String) (p : ProductoCompleto) (s : CacheState)
    (h1 : 1 ≤ s.maxL1Size) (h2 : s.l1.length ≤ s.maxL1Size) :
    (setToL1 k p s).l1.length ≤ s.maxL1Size := by
  by_cases hc : s.maxL1Size ≤ s.l1.length
  · have hf := List.length_filter_le (fun kv => kv.1 != k) s.l1.tail
    have ht : s.l1.tail.length = s.l1.length - 1 := List.length_tail s.l1
    simp only [setToL1, alInsert, alErase, evictLRU, if_pos hc,
      List.length_cons]
    omega
  · have hf := List.length_filter_le (fun kv => kv.1 != k) s.l1
    simp only [setToL1, alInsert, alErase, evictLRU, if_neg hc,
      List.length_cons]
    omega

/-- SetProduct changes the fast tier exactly as setToL1 does and leaves the
configured capacity untouched. -/
theorem setProduct_l1_eq (e : Env) (k : String) (p : ProductoCompleto)
    (s : CacheState) :
    (setProduct e k p s).2.l1 = (setToL1 k p s).l1 ∧
    (setProduct e k p s).2.maxL1Size = s.maxL1Size := by
  by_cases hup : e.redisUp <;> simp [setProduct, setToL2, setToL1, hup]

/-- Any run of SetProduct insertions preserves the capacity field and, when
the capacity is positive and the fast tier starts within it, keeps the fast
tier within it. -/
theorem setProducts_bound_aux (e : Env)
    (ops : List (String × ProductoCompleto)) :
    ∀ s : CacheState, 1 ≤ s.maxL1Size → s.l1.length ≤ s.maxL1Size →
      (setProducts e ops s).l1.length ≤ s.maxL1Size ∧
      (setProducts e ops s).maxL1Size = s.maxL1Size := by
  induction ops with
  | nil => intro s h1 h2; simpa [setProducts] using h2
  | cons op rest ih =>
    intro s h1 h2
    have hstep : setProducts e (op :: rest) s =
        setProducts e rest (setProduct e op.1 op.2 s).2 := rfl
    have hl1 := (setProduct_l1_eq e op.1 op.2 s).1
    have hmax := (setProduct_l1_eq e op.1 op.2 s).2
    have hlen : (setProduct e op.1 op.2 s).2.l1.length ≤
        (setProduct e op.1 op.2 s).2.maxL1Size := by
      rw [hl1, hmax]
      exact setToL1_length_le op.1 op.2 s h1 h2
    have h1' : 1 ≤ (setProduct e op.1 op.2 s).2.maxL1Size := by
      rw [hmax]; exact h1
    have := ih (setProduct e op.1 op.2 s).2 h1' hlen
    rw [hstep]
    rw [hmax] at this
    exact this

/-- A non-empty run of SetProduct insertions leaves the fast tier
non-empty: every insertion ends by writing the new binding. -/
theorem setProducts_l1_nonempty (e : Env)
    (ops : List (String × ProductoCompleto)) :
    ∀ s : CacheState, ops ≠ [] → (setProducts e ops s).l1 ≠ [] := by
  induction ops with
  | nil => intro s h; exact absurd rfl h
  | cons op rest ih =>
    intro s _
    cases hr : rest with
    | nil =>
      have h2 : setProducts e [op] s = (setProduct e op.1 op.2 s).2 := rfl
      rw [h2, (setProduct_l1_eq e op.1 op.2 s).1]
      simp [setToL1, alInsert]
    | cons op2 rest2 =>
      have h2 : setProducts e (op :: op2 :: rest2) s =
          setProducts e (op2 :: rest2) (setProduct e op.1 op.2 s).2 := rfl
      rw [h2]
      rw [hr] at ih
      exact ih _ (List.cons_ne_nil op2 rest2)

/-- C7: ShouldCheckDatabase returns true when no previous check was ever
recorded (the last-check key is absent from Redis), returns false for any
call strictly within checkIntervalSeconds of the recorded last check, and
returns true exactly at and after the interval boundary. -/
theorem shouldCheckDatabase_throttle (e : Env) (s : CacheState)
    (hup : e.redisUp = true) :
    (s.listaLastCheck = none → shouldCheckDatabase e s = .ok true) ∧
    (∀ t : Int, s.listaLastCheck = some (some t) →
      (e.now - t < checkIntervalSeconds → shouldCheckDatabase e s = .ok false) ∧
      (checkIntervalSeconds ≤ e.now - t → shouldCheckDatabase e s = .ok true)) := by
  refine ⟨fun h => ?_, fun t h => ⟨fun hlt => ?_, fun hge => ?_⟩⟩ <;>
    simp [shouldCheckDatabase, hup, h]
  · omega
  · omega

/-- Witness for C7 at a concrete state: never checked gives true, one
second after a check gives false, exactly ten seconds after gives true. -/
theorem shouldCheckDatabase_throttle_witness :
    shouldCheckDatabase { baseEnv with now := 101 } baseState = .ok true ∧
    shouldCheckDatabase { baseEnv with now := 101 }
      { baseState with listaLastCheck := some (some 100) } = .ok false ∧
    shouldCheckDatabase { baseEnv with now := 110 }
      { baseState with listaLastCheck := some (some 100) } = .ok true := by
  refine ⟨(shouldCheckDatabase_throttle _ _ rfl).1 rfl,
    ((shouldCheckDatabase_throttle _ _ rfl).2 100 rfl).1 (by decide),
    ((shouldCheckDatabase_throttle _ _ rfl).2 100 rfl).2 (by decide)⟩

/-- C10: when the stored last-check value exists but does not parse as a
decimal integer, both ShouldCheckDatabase and ShouldCheckProductosDatabase
return (true, nil): a corrupt throttle timestamp is silently treated as
never checked, forcing an immediate authoritative probe. -/
theorem shouldCheck_corrupt_timestamp (e : Env) (s : CacheState)
    (hup : e.redisUp = true)
    (h1 : s.listaLastCheck = some none)
    (h2 : s.productosLastCheck = some none) :
    shouldCheckDatabase e s = .ok true ∧
    shouldCheckProductosDatabase e s = .ok true := by
  constructor <;> simp [shouldCheckDatabase, shouldCheckProductosDatabase, hup, h1, h2]

/-- Witness for C10 at a concrete state with unparsable last-check payloads
in both domains. -/
theorem shouldCheck_corrupt_timestamp_witness :
    shouldCheckDatabase baseEnv
      { baseState with
        listaLastCheck := some none
        productosLastCheck := some none } = .ok true ∧
    shouldCheckProductosDatabase baseEnv
      { baseState with
        listaLastCheck := some none
        productosLastCheck := some none } = .ok true :=
  shouldCheck_corrupt_timestamp _ _ rfl rfl rfl

/-- C1: for either domain, when the probed authoritative version differs
from the stored one, a single coordinator execution
(InvalidateAllByVersion, resp. InvalidateAllByProductosVersion, applied to
the probed version) flushes the whole cache namespace exactly once
(flushCount rises by one, both tiers are emptied), returns invalidated =
true, and commits the new version; every subsequent execution with that
same version leaves the state untouched and returns invalidated = false,
performing zero further flushes. -/
theorem invalidateAllByVersion_once_per_version (e : Env) (v : String)
    (s : CacheState) (hup : e.redisUp = true) (hscan : e.scanOk = true) :
    (s.listaVersion.getD "" ≠ v →
      (invalidateAllByVersion e v s).1 = .ok true ∧
      (invalidateAllByVersion e v s).2.flushCount = s.flushCount + 1 ∧
      (invalidateAllByVersion e v s).2.l1 = [] ∧
      (invalidateAllByVersion e v s).2.l2 = [] ∧
      (invalidateAllByVersion e v s).2.listaVersion = some v ∧
      (∀ e' : Env, e'.redisUp = true →
        invalidateAllByVersion e' v (invalidateAllByVersion e v s).2 =
          (.ok false, (invalidateAllByVersion e v s).2))) ∧
    (s.productosVersion.getD "" ≠ v →
      (invalidateAllByProductosVersion e v s).1 = .ok true ∧
      (invalidateAllByProductosVersion e v s).2.flushCount = s.flushCount + 1 ∧
      (invalidateAllByProductosVersion e v s).2.l1 = [] ∧
      (invalidateAllByProductosVersion e v s).2.l2 = [] ∧
      (invalidateAllByProductosVersion e v s).2.productosVersion = some v ∧
      (∀ e' : Env, e'.redisUp = true →
        invalidateAllByProductosVersion e' v
            (invalidateAllByProductosVersion e v s).2 =
          (.ok false, (invalidateAllByProductosVersion e v s).2))) := by
  constructor
  · intro hne
    simp [invalidateAllByVersion, getGlobalVersion, invalidateAll,
      setGlobalVersion, hup, hscan, hne]
    intro e' hup'
    simp [invalidateAllByVersion, getGlobalVersion, hup']
  · intro hne
    simp [invalidateAllByProductosVersion, getProductosVersion, invalidateAll,
      setProductosVersion, hup, hscan, hne]
    intro e' hup'
    simp [invalidateAllByProductosVersion, getProductosVersion, hup']

/-- Witness for C1: the spec scenario, with the stored price-list version
at 2024-01-01 and the probed one at 2024-01-02, run on both domains. -/
theorem invalidateAllByVersion_once_per_version_witness :
    baseState.listaVersion.getD "" ≠ "2024-01-02T00:00:00Z" ∧
    baseState.productosVersion.getD "" ≠ "2024-01-02T00:00:00Z" ∧
    (invalidateAllByVersion baseEnv "2024-01-02T00:00:00Z"
      { baseState with listaVersion := some "2024-01-01T00:00:00Z" }).1 =
      .ok true ∧
    (invalidateAllByVersion baseEnv "2024-01-02T00:00:00Z"
      { baseState with
        listaVersion := some "2024-01-01T00:00:00Z" }).2.flushCount = 1 :=
  have h := invalidateAllByVersion_once_per_version baseEnv
    "2024-01-02T00:00:00Z"
    { baseState with listaVersion := some "2024-01-01T00:00:00Z" } rfl rfl
  ⟨by decide, by decide,
    (h.1 (by decide)).1, (h.1 (by decide)).2.1⟩

/-- C2: whenever a version mismatch is detected, both
InvalidateAllByVersion and InvalidateAllByProductosVersion flush the whole
namespace strictly before committing the new version: on a successful run
the appended event trace is exactly flush-then-commit and the cache is
fully empty in the committed state; when the flush fails, the error is
returned, the stored version is left unchanged (the mismatch stays
detectable), the durable tier is untouched, and no commit event occurs (the
fast tier has already been cleared, which only removes — never serves —
entries, and the unchanged version forces a retry of the full flush). -/
theorem invalidateAllByVersion_flush_before_commit (e : Env) (v : String)
    (s : CacheState) (hup : e.redisUp = true) :
    (s.listaVersion.getD "" ≠ v →
      (e.scanOk = true →
        (invalidateAllByVersion e v s).2.events =
          s.events ++ [.flush, .commitLista v] ∧
        (invalidateAllByVersion e v s).2.l1 = [] ∧
        (invalidateAllByVersion e v s).2.l2 = []) ∧
      (e.scanOk = false →
        (invalidateAllByVersion e v s).1 = .error () ∧
        (invalidateAllByVersion e v s).2.listaVersion = s.listaVersion ∧
        (invalidateAllByVersion e v s).2.l1 = [] ∧
        (invalidateAllByVersion e v s).2.l2 = s.l2 ∧
        (invalidateAllByVersion e v s).2.events =
          s.events ++ [.flushFailed])) ∧
    (s.productosVersion.getD "" ≠ v →
      (e.scanOk = true →
        (invalidateAllByProductosVersion e v s).2.events =
          s.events ++ [.flush, .commitProductos v] ∧
        (invalidateAllByProductosVersion e v s).2.l1 = [] ∧
        (invalidateAllByProductosVersion e v s).2.l2 = []) ∧
      (e.scanOk = false →
        (invalidateAllByProductosVersion e v s).1 = .error () ∧
        (invalidateAllByProductosVersion e v s).2.productosVersion =
          s.productosVersion ∧
        (invalidateAllByProductosVersion e v s).2.l1 = [] ∧
        (invalidateAllByProductosVersion e v s).2.l2 = s.l2 ∧
        (invalidateAllByProductosVersion e v s).2.events =
          s.events ++ [.flushFailed])) := by
  constructor
  · intro hne
    constructor
    · intro hscan
      simp [invalidateAllByVersion, getGlobalVersion, invalidateAll,
        setGlobalVersion, hup, hscan, hne]
    · intro hscan
      simp [invalidateAllByVersion, getGlobalVersion, invalidateAll,
        setGlobalVersion, hup, hscan, hne]
  · intro hne
    constructor
    · intro hscan
      simp [invalidateAllByProductosVersion, getProductosVersion,
        invalidateAll, setProductosVersion, hup, hscan, hne]
    · intro hscan
      simp [invalidateAllByProductosVersion, getProductosVersion,
        invalidateAll, setProductosVersion, hup, hscan, hne]

/-- Witness for C2: a successful mismatch run appends flush-then-commit,
and a failed flush leaves the stored version unchanged. -/
theorem invalidateAllByVersion_flush_before_commit_witness :
    (invalidateAllByVersion baseEnv "v2"
      { baseState with listaVersion := some "v1" }).2.events =
      [Event.flush, Event.commitLista "v2"] ∧
    (invalidateAllByVersion { baseEnv with scanOk := false } "v2"
      { baseState with listaVersion := some "v1" }).2.listaVersion =
      some "v1" :=
  have h1 := invalidateAllByVersion_flush_before_commit baseEnv "v2"
    { baseState with listaVersion := some "v1" } rfl
  have h2 := invalidateAllByVersion_flush_before_commit
    { baseEnv with scanOk := false } "v2"
    { baseState with listaVersion := some "v1" } rfl
  ⟨((h1.1 (by decide)).1 rfl).1, ((h2.1 (by decide)).2 rfl).2.1⟩

/-- C3 counterexample: the bulk-update notification endpoint does NOT
unconditionally reset last_checked_at.  With the stored price-list version
equal to the probed one ("v"), last_checked_at recorded at 100 and the
clock at 500, NotifyListaPreciosUpdate answers invalidated = false and
leaves last_checked_at at 100 instead of resetting it to 500. -/
theorem notify_lastcheck_not_reset_counterexample :
    (notifyListaPreciosUpdate
      { baseEnv with now := 500, listaTs := some "v" }
      { baseState with
        listaVersion := some "v"
        listaLastCheck := some (some 100) }).1.invalidated = some false ∧
    (notifyListaPreciosUpdate
      { baseEnv with now := 500, listaTs := some "v" }
      { baseState with
        listaVersion := some "v"
        listaLastCheck := some (some 100) }).2.listaLastCheck =
      some (some 100) ∧
    some (some (100 : Int)) ≠ some (some (500 : Int)) := by
  refine ⟨rfl, rfl, by decide⟩

/-- C3 as amended: every invocation of NotifyListaPreciosUpdate probes the
authoritative store exactly once, skipping the throttle check entirely (its
response and flush behaviour do not depend on last_checked_at); when the
probed version differs from the stored one it flushes the namespace and
commits the new version, which also resets last_checked_at; when the probed
version equals the stored one it performs no flush, changes nothing in
cache or version state, and leaves last_checked_at untouched; in both cases
it reports the observed version and whether an invalidation occurred. -/
theorem notify_forced_coordinator_pass (e : Env) (v : String) (s : CacheState)
    (hup : e.redisUp = true) (hscan : e.scanOk = true)
    (hts : e.listaTs = some v) :
    (notifyListaPreciosUpdate e s).2.dbVersionProbes =
      s.dbVersionProbes + 1 ∧
    (∀ lc, (notifyListaPreciosUpdate e
        { s with listaLastCheck := lc }).1 =
        (notifyListaPreciosUpdate e s).1 ∧
      (notifyListaPreciosUpdate e
        { s with listaLastCheck := lc }).2.flushCount =
        (notifyListaPreciosUpdate e s).2.flushCount) ∧
    (s.listaVersion.getD "" ≠ v →
      (notifyListaPreciosUpdate e s).1 =
        { success := true, version := some v, invalidated := some true } ∧
      (notifyListaPreciosUpdate e s).2.flushCount = s.flushCount + 1 ∧
      (notifyListaPreciosUpdate e s).2.l1 = [] ∧
      (notifyListaPreciosUpdate e s).2.l2 = [] ∧
      (notifyListaPreciosUpdate e s).2.listaVersion = some v ∧
      (notifyListaPreciosUpdate e s).2.listaLastCheck = some (some e.now)) ∧
    (s.listaVersion.getD "" = v →
      (notifyListaPreciosUpdate e s).1 =
        { success := true, version := some v, invalidated := some false } ∧
      (notifyListaPreciosUpdate e s).2.flushCount = s.flushCount ∧
      (notifyListaPreciosUpdate e s).2.l1 = s.l1 ∧
      (notifyListaPreciosUpdate e s).2.l2 = s.l2 ∧
      (notifyListaPreciosUpdate e s).2.listaVersion = s.listaVersion ∧
      (notifyListaPreciosUpdate e s).2.listaLastCheck = s.listaLastCheck) := by
  by_cases hv : s.listaVersion.getD "" = v
  · refine ⟨?_, fun lc => ?_, fun hne => absurd hv hne, fun _ => ?_⟩ <;>
      simp [notifyListaPreciosUpdate, invalidateAllByVersion,
        getGlobalVersion, hup, hts, hv]
  · refine ⟨?_, fun lc => ?_, fun _ => ?_, fun heq => absurd heq hv⟩ <;>
      simp [notifyListaPreciosUpdate, invalidateAllByVersion,
        getGlobalVersion, invalidateAll, setGlobalVersion, hup, hscan,
        hts, hv]

/-- Witness for the amended C3 on the counterexample scenario: equal
versions give invalidated = false with nothing touched, and a probe counted. -/
theorem notify_forced_coordinator_pass_witness :
    (notifyListaPreciosUpdate
      { baseEnv with now := 500, listaTs := some "v" }
      { baseState with
        listaVersion := some "v"
        listaLastCheck := some (some 100) }).1 =
      { success := true, version := some "v", invalidated := some false } ∧
    (notifyListaPreciosUpdate
      { baseEnv with now := 500, listaTs := some "v" }
      { baseState with
        listaVersion := some "v"
        listaLastCheck := some (some 100) }).2.dbVersionProbes = 1 :=
  have h := notify_forced_coordinator_pass
    { baseEnv with now := 500, listaTs := some "v" } "v"
    { baseState with
      listaVersion := some "v"
      listaLastCheck := some (some 100) } rfl rfl rfl
  ⟨(h.2.2.2 (by decide)).1, h.1⟩

/-- Record keys never collide with any marker key: a "product:"-namespace
key differs from both domains' version and last-check keys, so flushing or
deleting record entries can never touch oracle state.  This justifies
modelling the marker keys as separate state fields. -/
theorem productKey_ne_marker (k : String) :
    productKey k ≠ globalVersionKey ∧
    productKey k ≠ lastCheckTimestampKey ∧
    productKey k ≠ productosVersionKey ∧
    productKey k ≠ productosLastCheckKey := by
  refine ⟨fun h => ?_, fun h => ?_, fun h => ?_, fun h => ?_⟩ <;>
  · have h2 := congrArg (fun s => s.data.take 8) h
    simp [productKey, globalVersionKey, lastCheckTimestampKey,
      productosVersionKey, productosLastCheckKey, String.data_append] at h2

/-- C4: the price-list and catalog domains are versioned and throttled with
no shared oracle state.  Each domain's operations (set-version,
update-last-check, should-check, invalidate-by-version) neither read nor
write the other domain's version or last-check keys: running them on a
state whose other-domain fields are replaced by arbitrary values yields the
same result with exactly those fields carried through unchanged.  The four
marker keys are pairwise distinct, and no "product:" record key (the single
shared record namespace both domains flush) ever aliases a marker key. -/
theorem domain_oracle_independence (e : Env) (v : String) (s : CacheState)
    (pv lv : Option String) (plc llc : Option (Option Int)) :
    (setGlobalVersion e v
        { s with productosVersion := pv, productosLastCheck := plc } =
      ((setGlobalVersion e v s).1,
        { (setGlobalVersion e v s).2 with
          productosVersion := pv, productosLastCheck := plc })) ∧
    (updateLastCheck e
        { s with productosVersion := pv, productosLastCheck := plc } =
      ((updateLastCheck e s).1,
        { (updateLastCheck e s).2 with
          productosVersion := pv, productosLastCheck := plc })) ∧
    (shouldCheckDatabase e
        { s with productosVersion := pv, productosLastCheck := plc } =
      shouldCheckDatabase e s) ∧
    (invalidateAllByVersion e v
        { s with productosVersion := pv, productosLastCheck := plc } =
      ((invalidateAllByVersion e v s).1,
        { (invalidateAllByVersion e v s).2 with
          productosVersion := pv, productosLastCheck := plc })) ∧
    (setProductosVersion e v
        { s with listaVersion := lv, listaLastCheck := llc } =
      ((setProductosVersion e v s).1,
        { (setProductosVersion e v s).2 with
          listaVersion := lv, listaLastCheck := llc })) ∧
    (updateProductosLastCheck e
        { s with listaVersion := lv, listaLastCheck := llc } =
      ((updateProductosLastCheck e s).1,
        { (updateProductosLastCheck e s).2 with
          listaVersion := lv, listaLastCheck := llc })) ∧
    (shouldCheckProductosDatabase e
        { s with listaVersion := lv, listaLastCheck := llc } =
      shouldCheckProductosDatabase e s) ∧
    (invalidateAllByProductosVersion e v
        { s with listaVersion := lv, listaLastCheck := llc } =
      ((invalidateAllByProductosVersion e v s).1,
        { (invalidateAllByProductosVersion e v s).2 with
          listaVersion := lv, listaLastCheck := llc })) ∧
    (globalVersionKey ≠ lastCheckTimestampKey ∧
      globalVersionKey ≠ productosVersionKey ∧
      globalVersionKey ≠ productosLastCheckKey ∧
      lastCheckTimestampKey ≠ productosVersionKey ∧
      lastCheckTimestampKey ≠ productosLastCheckKey ∧
      productosVersionKey ≠ productosLastCheckKey) ∧
    (∀ k : String, productKey k ≠ globalVersionKey ∧
      productKey k ≠ lastCheckTimestampKey ∧
      productKey k ≠ productosVersionKey ∧
      productKey k ≠ productosLastCheckKey) := by
  refine ⟨?_, ?_, ?_, ?_, ?_, ?_, ?_, ?_, by decide, productKey_ne_marker⟩
  · by_cases hup : e.redisUp <;> simp [setGlobalVersion, hup]
  · by_cases hup : e.redisUp <;> simp [updateLastCheck, hup]
  · by_cases hup : e.redisUp <;> simp [shouldCheckDatabase, hup]
  · by_cases hup : e.redisUp
    · by_cases hv : s.listaVersion.getD "" = v
      · simp [invalidateAllByVersion, getGlobalVersion, hup, hv]
      · by_cases hscan : e.scanOk <;>
          simp [invalidateAllByVersion, getGlobalVersion, invalidateAll,
            setGlobalVersion, hup, hv, hscan]
    · simp [invalidateAllByVersion, getGlobalVersion, hup]
  · by_cases hup : e.redisUp <;> simp [setProductosVersion, hup]
  · by_cases hup : e.redisUp <;> simp [updateProductosLastCheck, hup]
  · by_cases hup : e.redisUp <;> simp [shouldCheckProductosDatabase, hup]
  · by_cases hup : e.redisUp
    · by_cases hv : s.productosVersion.getD "" = v
      · simp [invalidateAllByProductosVersion, getProductosVersion, hup, hv]
      · by_cases hscan : e.scanOk <;>
          simp [invalidateAllByProductosVersion, getProductosVersion,
            invalidateAll, setProductosVersion, hup, hv, hscan]
    · simp [invalidateAllByProductosVersion, getProductosVersion, hup]

/-- C5: for a scan code absent from both tiers (with both oracles fresh, so
the coordinator passes are no-ops), the first lookup resolves the record
from the authoritative store, reports cache_hit = false, stores the record
in both tiers and counts exactly one authoritative record query; any
immediate second lookup of the same code within the throttle interval
returns the same record with cache_hit = true and performs no
authoritative-store query of any kind (neither a record query nor a
version probe). -/
theorem search_miss_populates_then_hits (e : Env) (k : String)
    (p : ProductoCompleto) (v w : String) (t t' : Int) (s : CacheState)
    (hk : k ≠ "") (hup : e.redisUp = true)
    (hl1 : alLookup k s.l1 = none) (hl2 : alLookup k s.l2 = none)
    (hdb : e.db k = some p)
    (hlv : s.listaVersion = some v) (hv : v ≠ "")
    (hlc : s.listaLastCheck = some (some t))
    (ht : e.now - t < checkIntervalSeconds)
    (hpv : s.productosVersion = some w) (hw : w ≠ "")
    (hplc : s.productosLastCheck = some (some t'))
    (ht' : e.now - t' < checkIntervalSeconds) :
    (searchProductByBarcode e k s).1 =
      { success := true, producto := some p, cacheHit := some false } ∧
    alLookup k (searchProductByBarcode e k s).2.l1 = some p ∧
    alLookup k (searchProductByBarcode e k s).2.l2 = some (.ok p) ∧
    (searchProductByBarcode e k s).2.dbRecordQueries =
      s.dbRecordQueries + 1 ∧
    (∀ e' : Env, e'.redisUp = true →
      e'.now - t < checkIntervalSeconds →
      e'.now - t' < checkIntervalSeconds →
      (searchProductByBarcode e' k (searchProductByBarcode e k s).2).1 =
        { success := true, producto := some p, cacheHit := some true } ∧
      (searchProductByBarcode e' k
          (searchProductByBarcode e k s).2).2.dbRecordQueries =
        (searchProductByBarcode e k s).2.dbRecordQueries ∧
      (searchProductByBarcode e' k
          (searchProductByBarcode e k s).2).2.dbVersionProbes =
        (searchProductByBarcode e k s).2.dbVersionProbes) := by
  have hval := validateGlobalVersion_noop e s v t hup hlv hv hlc ht
  have hvalP := validateProductosVersion_noop e s w t' hup hpv hw hplc ht'
  have hl2e : getFromL2 e k s = .error () := by
    simp [getFromL2, hup, hl2]
  have hget := getProduct_miss e k s hl1 hl2e
  have hsearch : searchProductByBarcode e k s =
      ({ success := true, producto := some p, cacheHit := some false },
        { s with
          l1 := alInsert k p
            (if s.maxL1Size ≤ s.l1.length then s.l1.tail else s.l1)
          l2 := alInsert k (.ok p) s.l2
          misses := s.misses + 1
          dbRecordQueries := s.dbRecordQueries + 1 }) := by
    simp [searchProductByBarcode, hk, hval, hvalP, hget, hdb, setProduct,
      setToL1, setToL2, evictLRU, recordMiss, hup]
  rw [hsearch]
  refine ⟨rfl, alLookup_insert k p _, alLookup_insert k (L2Payload.ok p) _,
    rfl, fun e' hup' ht1 ht2 => ?_⟩
  have hhit := search_l1_hit e' k p v w t t'
    { s with
      l1 := alInsert k p
        (if s.maxL1Size ≤ s.l1.length then s.l1.tail else s.l1)
      l2 := alInsert k (.ok p) s.l2
      misses := s.misses + 1
      dbRecordQueries := s.dbRecordQueries + 1 }
    hk hup' (alLookup_insert k p _) hlv hv hlc ht1 hpv hw hplc ht2
  rw [hhit]
  exact ⟨rfl, rfl, rfl⟩

/-- Witness for C5: a concrete empty cache with fresh oracles, one record
in the authoritative store, and the two scripted lookups. -/
theorem search_miss_populates_then_hits_witness :
    (searchProductByBarcode
      { baseEnv with
        db := fun c => if c = "7801234567890" then
          some { codigo := "P100", codigoPack := none, nombre := "n" }
          else none
        now := 105 }
      "7801234567890"
      { baseState with
        listaVersion := some "v1"
        listaLastCheck := some (some 100)
        productosVersion := some "w1"
        productosLastCheck := some (some 100) }).1 =
      { success := true,
        producto := some { codigo := "P100", codigoPack := none, nombre := "n" },
        cacheHit := some false } := by
  have h := search_miss_populates_then_hits
    { baseEnv with
      db := fun c => if c = "7801234567890" then
        some { codigo := "P100", codigoPack := none, nombre := "n" }
        else none
      now := 105 }
    "7801234567890"
    { codigo := "P100", codigoPack := none, nombre := "n" } "v1" "w1" 100 100
    { baseState with
      listaVersion := some "v1"
      listaLastCheck := some (some 100)
      productosVersion := some "w1"
      productosLastCheck := some (some 100) }
    (by decide) rfl rfl rfl (by simp) rfl (by decide) rfl (by decide) rfl
    (by decide) rfl (by decide)
  exact h.1

/-- C6: a durable-tier read failure — Redis unreachable or a cached payload
that fails deserialization — never surfaces as a distinct error from
GetProduct: on a fast-tier miss it returns the single miss outcome exactly
as for a key absent from both tiers (recording a miss), and the lookup
handler then falls through to the authoritative store, counting one record
query. -/
theorem getProduct_l2_failure_is_miss (e : Env) (k : String)
    (v w : String) (t t' : Int) (s : CacheState)
    (hl1 : alLookup k s.l1 = none)
    (hfail : e.redisUp = false ∨ alLookup k s.l2 = some L2Payload.corrupt) :
    (getProduct e k s).1 = none ∧
    (getProduct e k s).2 = recordMiss s ∧
    (getProduct { e with redisUp := true } k
      { s with l2 := alErase k s.l2 }).1 = none ∧
    (k ≠ "" → s.listaVersion = some v → v ≠ "" →
      s.listaLastCheck = some (some t) →
      e.now - t < checkIntervalSeconds →
      s.productosVersion = some w → w ≠ "" →
      s.productosLastCheck = some (some t') →
      e.now - t' < checkIntervalSeconds →
      (searchProductByBarcode e k s).2.dbRecordQueries =
        s.dbRecordQueries + 1) := by
  have hl2e : getFromL2 e k s = .error () := by
    rcases hfail with hdown | hcor
    · simp [getFromL2, hdown]
    · simp [getFromL2, hcor]
  have hget := getProduct_miss e k s hl1 hl2e
  have habs : getProduct { e with redisUp := true } k
      { s with l2 := alErase k s.l2 } =
      (none, recordMiss { s with l2 := alErase k s.l2 }) := by
    apply getProduct_miss
    · exact hl1
    · simp [getFromL2, alLookup_erase]
  refine ⟨by rw [hget], by rw [hget], by rw [habs],
    fun hk hlv hv hlc ht hpv hw hplc ht' => ?_⟩
  cases hup : e.redisUp with
  | true =>
    have hval := validateGlobalVersion_noop e s v t hup hlv hv hlc ht
    have hvalP := validateProductosVersion_noop e s w t' hup hpv hw hplc ht'
    cases hdbk : e.db k <;>
      simp [searchProductByBarcode, hk, hval, hvalP, hget, hdbk, setProduct,
        setToL1, setToL2, evictLRU, recordMiss, hup]
  | false =>
    have hval : validateGlobalVersion e s = (.error (), s) := by
      simp [validateGlobalVersion, getGlobalVersion, hup]
    have hvalP : validateProductosVersion e s = (.error (), s) := by
      simp [validateProductosVersion, getProductosVersion, hup]
    cases hdbk : e.db k <;>
      simp [searchProductByBarcode, hk, hval, hvalP, hget, hdbk, setProduct,
        setToL1, setToL2, evictLRU, recordMiss, hup]

/-- Witness for C6 on a concrete corrupt durable-tier payload with Redis
reachable and a fresh oracle. -/
theorem getProduct_l2_failure_is_miss_witness :
    (getProduct { baseEnv with now := 105 } "c1"
      { baseState with
        l2 := [("c1", L2Payload.corrupt)]
        listaVersion := some "v1"
        listaLastCheck := some (some 100)
        productosVersion := some "w1"
        productosLastCheck := some (some 100) }).1 = none ∧
    (searchProductByBarcode { baseEnv with now := 105 } "c1"
      { baseState with
        l2 := [("c1", L2Payload.corrupt)]
        listaVersion := some "v1"
        listaLastCheck := some (some 100)
        productosVersion := some "w1"
        productosLastCheck := some (some 100) }).2.dbRecordQueries = 1 :=
  have h := getProduct_l2_failure_is_miss { baseEnv with now := 105 } "c1"
    "v1" "w1" 100 100
    { baseState with
      l2 := [("c1", L2Payload.corrupt)]
      listaVersion := some "v1"
      listaLastCheck := some (some 100)
      productosVersion := some "w1"
      productosLastCheck := some (some 100) }
    rfl (Or.inr rfl)
  ⟨h.1, h.2.2.2 (by decide) rfl (by decide) rfl (by decide) rfl (by decide)
    rfl (by decide)⟩

/-- C9 counterexample: the fast-tier bound fails for the configured
capacity 0.  setToL1 evicts (from an already empty map, a no-op) and then
inserts, so one SetProduct leaves the fast tier at size 1, exceeding the
configured maximum 0. -/
theorem setProduct_capacity_zero_counterexample :
    ({ baseState with maxL1Size := 0 } : CacheState).maxL1Size = 0 ∧
    ((setProduct baseEnv "a"
      { codigo := "A", codigoPack := none, nombre := "n" }
      { baseState with maxL1Size := 0 }).2.l1.length = 1) ∧
    ¬ ((setProduct baseEnv "a"
      { codigo := "A", codigoPack := none, nombre := "n" }
      { baseState with maxL1Size := 0 }).2.l1.length ≤
        ({ baseState with maxL1Size := 0 } : CacheState).maxL1Size) := by
  refine ⟨rfl, rfl, by decide⟩

/-- C9 as amended: for every configured maximum capacity of at least 1 and
every starting state within that capacity, the fast-tier size after each
SetProduct of an insertion sequence never exceeds the capacity; and for any
capacity, eviction alone never empties the fast tier — after a non-empty
insertion sequence the fast tier is non-empty (only explicit invalidation
empties it). -/
theorem setProducts_capacity_invariant (e : Env)
    (ops : List (String × ProductoCompleto)) (s : CacheState)
    (h1 : 1 ≤ s.maxL1Size) (h2 : s.l1.length ≤ s.maxL1Size) :
    (setProducts e ops s).l1.length ≤ s.maxL1Size ∧
    (∀ s' : CacheState, ∀ ops' : List (String × ProductoCompleto),
      ops' ≠ [] → (setProducts e ops' s').l1 ≠ []) :=
  ⟨(setProducts_bound_aux e ops s h1 h2).1,
    fun s' ops' h => setProducts_l1_nonempty e ops' s' h⟩

/-- Witness for the amended C9: three insertions (one repeated) into a
two-slot fast tier stay within capacity and leave it non-empty. -/
theorem setProducts_capacity_invariant_witness :
    (setProducts baseEnv
      [("a", { codigo := "A", codigoPack := none, nombre := "na" }),
        ("b", { codigo := "B", codigoPack := none, nombre := "nb" }),
        ("c", { codigo := "C", codigoPack := none, nombre := "nc" })]
      { baseState with maxL1Size := 2 }).l1.length ≤ 2 ∧
    (setProducts baseEnv
      [("a", { codigo := "A", codigoPack := none, nombre := "na" }),
        ("b", { codigo := "B", codigoPack := none, nombre := "nb" }),
        ("c", { codigo := "C", codigoPack := none, nombre := "nc" })]
      { baseState with maxL1Size := 2 }).l1 ≠ [] :=
  have h := setProducts_capacity_invariant baseEnv
    [("a", { codigo := "A", codigoPack := none, nombre := "na" }),
      ("b", { codigo := "B", codigoPack := none, nombre := "nb" }),
      ("c", { codigo := "C", codigoPack := none, nombre := "nc" })]
    { baseState with maxL1Size := 2 } (by decide) (by decide)
  ⟨h.1, h.2 _ _ (by decide)⟩

/-- C8 counterexample: on divergent tiers the claim fails.  The fast tier
holds record X under barcode "k" while the durable tier holds record Y
(codes "Y", no pack) under the same barcode; InvalidateByCodigoTivendo "X"
collects "k" from the fast tier and deletes it from BOTH tiers, removing
the durable-tier entry although its canonical code and pack code both
differ from "X". -/
theorem invalidateByCodigoTivendo_counterexample :
    matchesCodigoTivendo "X"
      { codigo := "Y", codigoPack := none, nombre := "ny" } = false ∧
    alLookup "k" ({ baseState with
      l1 := [("k", { codigo := "X", codigoPack := none, nombre := "nx" })]
      l2 := [("k", L2Payload.ok
        { codigo := "Y", codigoPack := none, nombre := "ny" })] }
      : CacheState).l2 =
      some (L2Payload.ok
        { codigo := "Y", codigoPack := none, nombre := "ny" }) ∧
    alLookup "k" (invalidateByCodigoTivendo baseEnv "X"
      { baseState with
        l1 := [("k", { codigo := "X", codigoPack := none, nombre := "nx" })]
        l2 := [("k", L2Payload.ok
          { codigo := "Y", codigoPack := none, nombre := "ny" })] }).2.l2 =
      none := by
  refine ⟨rfl, rfl, by decide⟩

/-- C8 as amended: on coherent tiers (unique keys per tier, and a key
present in the fast tier never has a different durable-tier payload),
InvalidateByCodigoTivendo removes from each tier exactly the entries whose
record's canonical code or pack code equals the requested code — corrupt
durable payloads are never collected — and leaves every other entry present
and unchanged, in order, in both tiers. -/
theorem invalidateByCodigoTivendo_removes_matches (e : Env) (code : String)
    (s : CacheState) (hup : e.redisUp = true) (hco : tiersCoherent s) :
    (invalidateByCodigoTivendo e code s).2.l1 =
      s.l1.filter (fun kv => !(matchesCodigoTivendo code kv.2)) ∧
    (invalidateByCodigoTivendo e code s).2.l2 =
      s.l2.filter (fun kv => !(l2Matches code kv.2)) := by
  obtain ⟨hnd1, hnd2, hagree⟩ := hco
  have key1 : ∀ kv ∈ s.l1,
      (((s.l1.filter (fun kv => matchesCodigoTivendo code kv.2)).map
          (fun kv => kv.1) ++
        (s.l2.filter (fun kv => l2Matches code kv.2)).map
          (fun kv => kv.1)).contains kv.1) =
        matchesCodigoTivendo code kv.2 := by
    rintro ⟨k, p⟩ hmem
    by_cases hb : matchesCodigoTivendo code p = true
    · simp only [hb]
      simp only [List.contains, List.elem_eq_mem, decide_eq_true_eq,
        List.mem_append, List.mem_map, List.mem_filter]
      exact Or.inl ⟨(k, p), ⟨hmem, hb⟩, rfl⟩
    · have hb' : matchesCodigoTivendo code p = false :=
        Bool.eq_false_iff.mpr hb
      simp only [hb']
      simp only [List.contains, List.elem_eq_mem, decide_eq_false_iff_not,
        List.mem_append, List.mem_map, List.mem_filter]
      rintro (⟨⟨k2, p2⟩, ⟨hm2, hmp2⟩, hk2⟩ | ⟨⟨k2, w2⟩, ⟨hm2, hmw2⟩, hk2⟩)
      · simp only at hk2
        subst hk2
        have hl := alLookup_eq_of_mem hnd1 hm2
        have hl' := alLookup_eq_of_mem hnd1 hmem
        rw [hl'] at hl
        cases hl
        rw [hmp2] at hb'
        cases hb'
      · simp only at hk2
        subst hk2
        have hl2 := alLookup_eq_of_mem hnd2 hm2
        rcases hagree _ hmem with hnone | hsome
        · rw [hnone] at hl2
          cases hl2
        · rw [hsome] at hl2
          cases hl2
          simp only [l2Matches] at hmw2
          rw [hmw2] at hb'
          cases hb'
  have key2 : ∀ kv ∈ s.l2,
      (((s.l1.filter (fun kv => matchesCodigoTivendo code kv.2)).map
          (fun kv => kv.1) ++
        (s.l2.filter (fun kv => l2Matches code kv.2)).map
          (fun kv => kv.1)).contains kv.1) =
        l2Matches code kv.2 := by
    rintro ⟨k, w⟩ hmem
    by_cases hb : l2Matches code w = true
    · simp only [hb]
      simp only [List.contains, List.elem_eq_mem, decide_eq_true_eq,
        List.mem_append, List.mem_map, List.mem_filter]
      exact Or.inr ⟨(k, w), ⟨hmem, hb⟩, rfl⟩
    · have hb' : l2Matches code w = false := Bool.eq_false_iff.mpr hb
      simp only [hb']
      simp only [List.contains, List.elem_eq_mem, decide_eq_false_iff_not,
        List.mem_append, List.mem_map, List.mem_filter]
      rintro (⟨⟨k2, p2⟩, ⟨hm2, hmp2⟩, hk2⟩ | ⟨⟨k2, w2⟩, ⟨hm2, hmw2⟩, hk2⟩)
      · simp only at hk2
        subst hk2
        have hl2 := alLookup_eq_of_mem hnd2 hmem
        rcases hagree _ hm2 with hnone | hsome
        · rw [hnone] at hl2
          cases hl2
        · rw [hsome] at hl2
          cases hl2
          simp only [l2Matches] at hb'
          rw [hmp2] at hb'
          cases hb'
      · simp only at hk2
        subst hk2
        have hl2 := alLookup_eq_of_mem hnd2 hmem
        have hl2' := alLookup_eq_of_mem hnd2 hm2
        rw [hl2'] at hl2
        cases hl2
        rw [hmw2] at hb'
        cases hb'
  have hrw : invalidateByCodigoTivendo e code s =
      invalidateProducts e
        ((s.l1.filter (fun kv => matchesCodigoTivendo code kv.2)).map
            (fun kv => kv.1) ++
          (s.l2.filter (fun kv => l2Matches code kv.2)).map
            (fun kv => kv.1)) s := by
    simp [invalidateByCodigoTivendo, hup]
  rw [hrw]
  by_cases hemp :
      ((s.l1.filter (fun kv => matchesCodigoTivendo code kv.2)).map
          (fun kv => kv.1) ++
        (s.l2.filter (fun kv => l2Matches code kv.2)).map
          (fun kv => kv.1)) = []
  · have h1 : s.l1.filter (fun kv => !(matchesCodigoTivendo code kv.2)) =
        s.l1 :=
      List.filter_eq_self.mpr (fun kv hkv => by
        have hc := key1 kv hkv
        rw [hemp] at hc
        simp at hc
        simp [hc])
    have h2 : s.l2.filter (fun kv => !(l2Matches code kv.2)) = s.l2 :=
      List.filter_eq_self.mpr (fun kv hkv => by
        have hc := key2 kv hkv
        rw [hemp] at hc
        simp at hc
        simp [hc])
    rw [hemp]
    simp [invalidateProducts, h1, h2]
  · have hne : (((s.l1.filter (fun kv => matchesCodigoTivendo code kv.2)).map
          (fun kv => kv.1) ++
        (s.l2.filter (fun kv => l2Matches code kv.2)).map
          (fun kv => kv.1)).isEmpty) = false := by
      rw [List.isEmpty_eq_false_iff_exists_mem]
      rcases List.exists_mem_of_ne_nil _ hemp with ⟨x, hx⟩
      exact ⟨x, hx⟩
    simp only [invalidateProducts, hne, Bool.false_eq_true, if_false, hup,
      if_true]
    constructor
    · exact List.filter_congr (fun kv hkv => by rw [key1 kv hkv])
    · exact List.filter_congr (fun kv hkv => by rw [key2 kv hkv])

/-- Witness for the amended C8: a coherent two-entry cache; invalidating
catalog code "P100" removes exactly the entry resolving to it from both
tiers and leaves the unrelated entry in place. -/
theorem invalidateByCodigoTivendo_removes_matches_witness :
    (invalidateByCodigoTivendo baseEnv "P100"
      { baseState with
        l1 := [("7801234567890",
            { codigo := "P100", codigoPack := none, nombre := "np" }),
          ("555", { codigo := "Q200", codigoPack := none, nombre := "nq" })]
        l2 := [("7801234567890", L2Payload.ok
            { codigo := "P100", codigoPack := none, nombre := "np" }),
          ("555", L2Payload.ok
            { codigo := "Q200", codigoPack := none, nombre := "nq" })]
        }).2.l1 =
      [("555", { codigo := "Q200", codigoPack := none, nombre := "nq" })] ∧
    (invalidateByCodigoTivendo baseEnv "P100"
      { baseState with
        l1 := [("7801234567890",
            { codigo := "P100", codigoPack := none, nombre := "np" }),
          ("555", { codigo := "Q200", codigoPack := none, nombre := "nq" })]
        l2 := [("7801234567890", L2Payload.ok
            { codigo := "P100", codigoPack := none, nombre := "np" }),
          ("555", L2Payload.ok
            { codigo := "Q200", codigoPack := none, nombre := "nq" })]
        }).2.l2 =
      [("555", L2Payload.ok
        { codigo := "Q200", codigoPack := none, nombre := "nq" })] :=
  have h := invalidateByCodigoTivendo_removes_matches baseEnv "P100"
    { baseState with
      l1 := [("7801234567890",
          { codigo := "P100", codigoPack := none, nombre := "np" }),
        ("555", { codigo := "Q200", codigoPack := none, nombre := "nq" })]
      l2 := [("7801234567890", L2Payload.ok
          { codigo := "P100", codigoPack := none, nombre := "np" }),
        ("555", L2Payload.ok
          { codigo := "Q200", codigoPack := none, nombre := "nq" })] }
    rfl (by unfold tiersCoherent; decide)
  ⟨h.1.trans (by decide), h.2.trans (by decide)⟩

end StockService
